import Mathlib

/-!
# Red vs Blue counter service — shallow embedding

This file embeds the backend core of the `red_vs_blue_basic` repository:
the counter repository (`apps/backend/repositories/CounterRepository`,
inlined at the bottom of `apps/backend/services/CounterService.js`), the
counter service (`CounterService`), the HTTP controller
(`apps/backend/controllers/CounterController.js`) and the WebSocket
manager, and proves properties of the embedded operations.

Modelling conventions:
* SQL timestamps are logical `Nat` clock values; `DBState.now` plays the
  role of `NOW()` / `CURRENT_TIMESTAMP` and advances on each write.
* JavaScript numbers that the code treats as integers are `Int`.
* A query that can throw is modelled with `Except String`; the
  transaction/rollback discipline of the repository is reflected by the
  caller keeping its old state on `Except.error`.
* Fallible infrastructure (the database client) is modelled by an
  injected failure schedule where a claim needs it.
-/

namespace RedVsBlue

/-- Client metadata as assembled by `CounterService.incrementCounter`
(`enrichedClientInfo`). -/
structure ClientInfo where
  sessionId : Option String := none
  userAgent : Option String := none
  ipAddress : Option String := none
  deriving Repr, DecidableEq

/-- The `client_info` JSONB column: either the enriched client metadata of
an increment or the literal `{action: 'reset'}` object written by
`resetCounters`. -/
inductive ClientInfoVal where
  | resetAction : ClientInfoVal
  | info : ClientInfo → ClientInfoVal
  deriving Repr, DecidableEq

/-- One row of the `counters` table (migration 001). -/
structure CounterRow where
  color : String
  count : Int
  updated_at : Nat
  deriving Repr, DecidableEq

/-- One row of the `counter_history` table (migration 002). -/
structure HistoryEntry where
  color : String
  previous_count : Int
  new_count : Int
  increment_amount : Int
  client_info : Option ClientInfoVal
  timestamp : Nat
  session_id : Option String
  deriving Repr, DecidableEq

/-- Database state: the two tables plus the logical clock. -/
structure DBState where
  counters : List CounterRow
  history : List HistoryEntry
  now : Nat
  deriving Repr, DecidableEq

/-- The database as seeded by migration 001: one row per color
(`red`, `blue`), both counts 0, and an empty history table. -/
def seededDB : DBState :=
  { counters := [⟨"red", 0, 0⟩, ⟨"blue", 0, 0⟩], history := [], now := 1 }

/-- Result row of `CounterRepository.incrementCounter`. -/
structure IncResult where
  color : String
  previousCount : Int
  newCount : Int
  incrementBy : Int
  timestamp : Nat
  deriving Repr, DecidableEq

namespace CounterRepository

/-- `CounterRepository.incrementCounter(color, incrementBy, clientInfo)`:
selects the counter row `FOR UPDATE`, computes
`newCount = previousCount + incrementBy`, updates the row, commits.
Throws (rethrown as a generic message) when no row matches `color`.
Note: the `clientInfo` argument is accepted but never used, and no
`counter_history` row is inserted on this path. -/
def incrementCounter (db : DBState) (color : String) (incrementBy : Int)
    (_clientInfo : Option ClientInfo) : Except String (IncResult × DBState) :=
  match db.counters.find? (fun r => r.color == color) with
  | none => .error s!"Failed to increment {color} counter"
  | some row =>
      let newCount := row.count + incrementBy
      let counters := db.counters.map (fun r =>
        if r.color == color then { r with count := newCount, updated_at := db.now } else r)
      .ok ({ color := color, previousCount := row.count, newCount := newCount,
             incrementBy := incrementBy, timestamp := db.now },
           { db with counters := counters, now := db.now + 1 })

end CounterRepository

/-- An invocation of the storage layer, recorded so that "the store is
never invoked" claims are observable. -/
inductive StoreCall where
  | repoIncrement (color : String) (incrementBy : Int)
  | repoReset
  deriving Repr, DecidableEq

/-- Options object of `CounterService.incrementCounter`. -/
structure SvcOptions where
  incrementBy : Int := 1
  clientInfo : Option ClientInfo := none
  sessionId : Option String := none
  deriving Repr, DecidableEq

/-- The `{success, data?, message?, error?}` result shape returned by
`CounterService.incrementCounter`. -/
structure SvcIncrementResult where
  success : Bool
  data : Option IncResult := none
  message : Option String := none
  error : Option String := none
  deriving Repr, DecidableEq

namespace CounterService

/-- `this.validColors` as set in the `CounterService` constructor. -/
def validColors : List String := ["red", "blue"]

/-- `color.toLowerCase()`, modelled on the string's character data
(ASCII case folding, as `String.toLower` performs). -/
def jsToLower (s : String) : String := ⟨s.data.map Char.toLower⟩

/-- `CounterService.isValidColor`: membership of the lower-cased color in
`validColors`. -/
def isValidColor (color : String) : Bool :=
  validColors.contains (jsToLower color)

/-- `CounterService.incrementCounter(color, options)`.  Returns the
result, the database state after the call, and the list of storage-layer
calls that were made. -/
def incrementCounter (db : DBState) (color : String) (options : SvcOptions) :
    SvcIncrementResult × DBState × List StoreCall :=
  if !isValidColor color then
    ({ success := false,
       error := some s!"Invalid color \x27{color}\x27. Valid colors are: red, blue" },
     db, [])
  else if options.incrementBy < 1 then
    ({ success := false, error := some "Increment amount must be a positive integer" },
     db, [])
  else
    let enriched : ClientInfo :=
      { sessionId := options.sessionId
        userAgent := (options.clientInfo.map (·.userAgent)).getD none
        ipAddress := (options.clientInfo.map (·.ipAddress)).getD none }
    match CounterRepository.incrementCounter db color options.incrementBy (some enriched) with
    | .error _ =>
        ({ success := false, error := some s!"Failed to increment {color} counter" },
         db, [.repoIncrement color options.incrementBy])
    | .ok (r, db') =>
        ({ success := true, data := some r,
           message := some s!"{color} counter incremented successfully" },
         db', [.repoIncrement color options.incrementBy])

end CounterService

/-- The history row inserted by `CounterRepository.resetCounters` for one
pre-reset counter row: `(color, previous_count, 0, -count, {action:'reset'})`. -/
def resetEntry (now : Nat) (r : CounterRow) : HistoryEntry :=
  { color := r.color, previous_count := r.count, new_count := 0,
    increment_amount := -r.count, client_info := some .resetAction,
    timestamp := now, session_id := none }

/-- Whether the injected failure schedule hits one of the reset
transaction's queries (index 0 = the SELECT, 1 = the UPDATE, 2..n+1 = the
n INSERTs, n+2 = the COMMIT). -/
def resetFails (failAt : Option Nat) (n : Nat) : Bool :=
  match failAt with
  | some k => decide (k ≤ n + 2)
  | none => false

namespace CounterRepository

/-- `CounterRepository.resetCounters()`: one transaction that reads all
counter rows, sets every count to 0, and inserts one history row per
counter row read.  `failAt` injects a database failure at the given query
index (0 = the SELECT, 1 = the UPDATE, 2..n+1 = the INSERTs, n+2 = the
COMMIT); any such failure rolls the transaction back, so the caller keeps
the unchanged state and sees the rethrown error. -/
def resetCounters (failAt : Option Nat) (db : DBState) : Except String DBState :=
  if resetFails failAt db.counters.length then .error "Failed to reset counters"
  else
    .ok { counters := db.counters.map (fun r => { r with count := 0, updated_at := db.now }),
          history := db.history ++ db.counters.map (resetEntry db.now),
          now := db.now + 1 }

end CounterRepository

/-- The `{success, data?, message?, error?}` shape returned by
`CounterService.resetAllCounters`; `data` carries the repository's
`{message, timestamp}` payload. -/
structure SvcResetResult where
  success : Bool
  data : Option String := none
  message : Option String := none
  error : Option String := none
  deriving Repr, DecidableEq

/-- One element of the `increments` array given to
`CounterService.batchIncrementCounters`. -/
structure BatchItem where
  color : String
  incrementBy : Int := 1
  clientInfo : Option ClientInfo := none
  deriving Repr, DecidableEq

/-- The `summary` object of a batch-increment result. -/
structure BatchSummary where
  total : Nat
  successful : Nat
  failed : Nat
  deriving Repr, DecidableEq

/-- One element of the `failed` array of a batch-increment result. -/
structure BatchFailure where
  color : String
  error : String
  deriving Repr, DecidableEq

/-- The result of `CounterService.batchIncrementCounters`. -/
structure BatchResult where
  success : Bool
  successfulResults : List IncResult
  failed : List BatchFailure
  summary : BatchSummary
  deriving Repr, DecidableEq

namespace CounterService

/-- `CounterService.resetAllCounters(adminInfo)`: delegates to the
repository reset and converts the outcome to the uniform result shape
(admin logging is console-only and not modelled). -/
def resetAllCounters (failAt : Option Nat) (db : DBState) :
    SvcResetResult × DBState × List StoreCall :=
  match CounterRepository.resetCounters failAt db with
  | .ok db' =>
      ({ success := true, data := some "All counters reset to zero",
         message := some "All counters have been reset to zero" }, db', [.repoReset])
  | .error _ =>
      ({ success := false, error := some "Failed to reset counters" }, db, [.repoReset])

/-- `CounterService.batchIncrementCounters(increments)`: processes the
items sequentially through `incrementCounter`, partitioning outcomes;
overall `success` is true exactly when the `errors` array stayed empty. -/
def batchIncrementCounters (db : DBState) (increments : List BatchItem) :
    BatchResult × DBState :=
  let step := fun (acc : List IncResult × List BatchFailure × DBState) (item : BatchItem) =>
    let t := incrementCounter acc.2.2 item.color
        { incrementBy := item.incrementBy, clientInfo := item.clientInfo }
    if t.1.success then (acc.1 ++ t.1.data.toList, acc.2.1, t.2.1)
    else (acc.1, acc.2.1 ++ [⟨item.color, t.1.error.getD ""⟩], t.2.1)
  let acc := increments.foldl step ([], [], db)
  ({ success := acc.2.1.isEmpty,
     successfulResults := acc.1, failed := acc.2.1,
     summary := { total := increments.length, successful := acc.1.length,
                  failed := acc.2.1.length } }, acc.2.2)

end CounterService

/-- Lexicographic comparison of character lists by code point, used to
model SQL `ORDER BY` on text columns. -/
def strLeChars : List Char → List Char → Bool
  | [], _ => true
  | _ :: _, [] => false
  | a :: as, b :: bs =>
      if a.val < b.val then true
      else if b.val < a.val then false
      else strLeChars as bs

/-- Lexicographic `<=` on strings by character code. -/
def strLe (a b : String) : Bool := strLeChars a.data b.data

/-- `ORDER BY color` on counter rows. -/
def colorLe (a b : CounterRow) : Prop := strLe a.color b.color = true

instance : DecidableRel colorLe := fun a b => by
  unfold colorLe; exact inferInstance

/-- The `{counters, lastUpdated}` object built by
`CounterRepository.getCounters`. -/
structure CountersRead where
  counters : List (String × Int)
  lastUpdated : Option Nat
  deriving Repr, DecidableEq

/-- The result shape of `CounterService.getCurrentCounters`. -/
structure SvcCountersResult where
  success : Bool
  data : Option CountersRead := none
  error : Option String := none
  timestamp : Nat
  deriving Repr, DecidableEq

namespace CounterRepository

/-- `CounterRepository.getCounters()`: reads all counter rows ordered by
color and shapes them into a color-to-count mapping plus the most recent
`updated_at` (absent when there are no rows). -/
def getCounters (db : DBState) : CountersRead :=
  let rows := List.insertionSort colorLe db.counters
  { counters := rows.map (fun r => (r.color, r.count)),
    lastUpdated := (rows.map (·.updated_at)).max? }

end CounterRepository

/-- `CounterService.getCurrentCounters()`: wraps the repository read (which
in this pure model cannot throw) in the uniform success shape. -/
def CounterService.getCurrentCounters (db : DBState) : SvcCountersResult :=
  { success := true, data := some (CounterRepository.getCounters db),
    timestamp := db.now }

/-- `ORDER BY timestamp DESC` on history rows. -/
def tsDesc (a b : HistoryEntry) : Prop := b.timestamp ≤ a.timestamp

instance : DecidableRel tsDesc := fun a b => by
  unfold tsDesc; exact inferInstance

/-- The `{history, pagination}` object returned by
`CounterRepository.getCounterHistory`. -/
structure HistoryPage where
  history : List HistoryEntry
  limit : Int
  offset : Int
  totalCount : Nat
  hasMore : Bool
  deriving Repr, DecidableEq

namespace CounterRepository

/-- Row filter of the dynamically built history query: optional color
equality, optional `timestamp >= startDate`, optional
`timestamp <= endDate`. -/
def historyMatches (color : Option String) (startDate endDate : Option Nat)
    (h : HistoryEntry) : Bool :=
  (match color with | some c => h.color == c | none => true) &&
  (match startDate with | some s => decide (s ≤ h.timestamp) | none => true) &&
  (match endDate with | some e => decide (h.timestamp ≤ e) | none => true)

/-- `CounterRepository.getCounterHistory(options)`: filters the history
table, orders by timestamp descending, applies `LIMIT`/`OFFSET`, and
returns the page plus pagination metadata (`totalCount` from the parallel
COUNT query, `hasMore = offset + limit < totalCount`).  A negative
`LIMIT`/`OFFSET` is a storage error (as in PostgreSQL), rethrown
generically. -/
def getCounterHistory (db : DBState) (color : Option String)
    (limit offset : Int) (startDate endDate : Option Nat) :
    Except String HistoryPage :=
  if limit < 0 || offset < 0 then .error "Failed to fetch counter history"
  else
    let filtered := db.history.filter (historyMatches color startDate endDate)
    let sorted := List.insertionSort tsDesc filtered
    .ok { history := (sorted.drop offset.toNat).take limit.toNat,
          limit := limit, offset := offset,
          totalCount := filtered.length,
          hasMore := offset + limit < (filtered.length : Int) }

end CounterRepository

/-- The filter object accepted by `CounterService.getCounterHistory`
(with its defaulted fields). -/
structure HistoryFilters where
  color : Option String := none
  limit : Int := 50
  offset : Int := 0
  startDate : Option Nat := none
  endDate : Option Nat := none
  deriving Repr, DecidableEq

/-- The result shape of `CounterService.getCounterHistory`. -/
structure SvcHistoryResult where
  success : Bool
  data : Option HistoryPage := none
  error : Option String := none
  deriving Repr, DecidableEq

namespace CounterService

/-- The storage-delegating tail of `CounterService.getCounterHistory`:
the repository is called with `limit` capped at 1000 and `offset` clamped
to be non-negative. -/
def historyFetch (db : DBState) (f : HistoryFilters) : SvcHistoryResult :=
  match CounterRepository.getCounterHistory db f.color
      (min f.limit 1000) (max f.offset 0) f.startDate f.endDate with
  | .ok page => { success := true, data := some page }
  | .error _ => { success := false, error := some "Failed to retrieve counter history" }

/-- `CounterService.getCounterHistory(filters)`: validates the color
filter when present, then delegates with clamped pagination. -/
def getCounterHistory (db : DBState) (f : HistoryFilters) : SvcHistoryResult :=
  match f.color with
  | some c =>
      if !isValidColor c then
        { success := false,
          error := some s!"Invalid color \x27{c}\x27. Valid colors are: red, blue" }
      else historyFetch db f
  | none => historyFetch db f

end CounterService

/-- One registry entry of the WebSocket manager's `clients` map:
transport handle (modelled by its open/closed state), client info, the
liveness flag, and the `subscribed` field, which is absent (JS
`undefined`) until a subscribe/unsubscribe message sets it. -/
structure WSClient where
  id : String
  subscribed : Option Bool := none
  isOpen : Bool := true
  isAlive : Bool := true
  connectedAt : Nat := 0
  lastSeen : Nat := 0
  deriving Repr, DecidableEq

/-- One row produced by the statistics query of
`CounterRepository.getCounterStats` (current value LEFT JOINed with
windowed history aggregates, COALESCEd to zeros). -/
structure StatsRow where
  color : String
  current_count : Int
  total_increments : Nat
  total_increment_amount : Int
  avg_increment : Rat
  first_increment : Option Nat
  last_increment : Option Nat
  deriving Repr, DecidableEq

/-- The `{timeRange, stats, generatedAt}` object returned by
`CounterRepository.getCounterStats`. -/
structure StatsResult where
  timeRange : String
  stats : List StatsRow
  generatedAt : Nat
  deriving Repr, DecidableEq

namespace CounterRepository

/-- The `ranges` table of `CounterRepository.getTimeRangeQuery`, mapping
recognized labels to SQL interval fragments. -/
def ranges : List (String × String) := [
  ("1 hour", "NOW() - INTERVAL \x271 hour\x27"),
  ("24 hours", "NOW() - INTERVAL \x2724 hours\x27"),
  ("7 days", "NOW() - INTERVAL \x277 days\x27"),
  ("30 days", "NOW() - INTERVAL \x2730 days\x27"),
  ("1 year", "NOW() - INTERVAL \x271 year\x27")]

/-- `CounterRepository.getTimeRangeQuery(timeRange)`:
`ranges[timeRange] || ranges['24 hours']`. -/
def getTimeRangeQuery (timeRange : String) : String :=
  match ranges.lookup timeRange with
  | some q => q
  | none => (ranges.lookup "24 hours").getD ""

/-- Interpretation of the SQL fragments produced by `getTimeRangeQuery`
on the logical clock: `NOW() - INTERVAL h` becomes `now - h` with the
interval measured in hours. -/
def intervalHours (q : String) : Nat :=
  if q == "NOW() - INTERVAL \x271 hour\x27" then 1
  else if q == "NOW() - INTERVAL \x2724 hours\x27" then 24
  else if q == "NOW() - INTERVAL \x277 days\x27" then 168
  else if q == "NOW() - INTERVAL \x2730 days\x27" then 720
  else 8760

/-- The statistics-query row for one counter: aggregates over the history
entries of that color with `timestamp >= cutoff` (COUNT, SUM, AVG, MIN,
MAX, COALESCEd to 0 where the SQL does). -/
def statsRowFor (db : DBState) (cutoff : Nat) (r : CounterRow) : StatsRow :=
  let entries := db.history.filter
    (fun h => h.color == r.color && decide (cutoff ≤ h.timestamp))
  let total := (entries.map (·.increment_amount)).sum
  { color := r.color, current_count := r.count,
    total_increments := entries.length,
    total_increment_amount := total,
    avg_increment :=
      if entries.length = 0 then 0 else (total : Rat) / (entries.length : Rat),
    first_increment := (entries.map (·.timestamp)).min?,
    last_increment := (entries.map (·.timestamp)).max? }

/-- `CounterRepository.getCounterStats(timeRange)`: evaluates the
statistics query with the window predicate from `getTimeRangeQuery`,
producing one row per counter ordered by color. -/
def getCounterStats (db : DBState) (timeRange : String) : StatsResult :=
  let timeQuery := getTimeRangeQuery timeRange
  let cutoff := db.now - intervalHours timeQuery
  { timeRange := timeRange,
    stats := (List.insertionSort colorLe db.counters).map (statsRowFor db cutoff),
    generatedAt := db.now }

end CounterRepository

/-- The `summary` object computed by
`CounterService.calculateSummaryMetrics`. -/
structure SummaryMetrics where
  totalCount : Int
  totalIncrements : Nat
  leader : String
  leaderCount : Int
  difference : Int
  deriving Repr, DecidableEq

/-- The `data` payload of a successful
`CounterService.getCounterStatistics` call (repository stats enriched
with summary and insights). -/
structure EnrichedStats where
  timeRange : String
  stats : List StatsRow
  generatedAt : Nat
  summary : SummaryMetrics
  insights : List String
  deriving Repr, DecidableEq

/-- The result shape of `CounterService.getCounterStatistics`. -/
structure SvcStatsResult where
  success : Bool
  data : Option EnrichedStats := none
  error : Option String := none
  deriving Repr, DecidableEq

namespace CounterService

/-- `CounterService.calculateSummaryMetrics(stats)`: totals, the leader
row (a first-wins `reduce` by `current_count`), and the absolute
difference of the first two rows (`|| 0` turns the NaN of a short array
into 0).  On an empty array the JS `reduce` with no initial value throws,
modelled as `none`. -/
def calculateSummaryMetrics (stats : List StatsRow) : Option SummaryMetrics :=
  match stats with
  | [] => none
  | s0 :: rest =>
      let leader := rest.foldl
        (fun p c => if c.current_count > p.current_count then c else p) s0
      some { totalCount := ((s0 :: rest).map (·.current_count)).sum,
             totalIncrements := ((s0 :: rest).map (·.total_increments)).sum,
             leader := leader.color,
             leaderCount := leader.current_count,
             difference :=
               match rest with
               | s1 :: _ => ((s0.current_count - s1.current_count).natAbs : Int)
               | [] => 0 }

/-- `CounterService.generateInsights(stats)`: textual insights from the
first two stats rows. -/
def generateInsights (stats : List StatsRow) : List String :=
  match stats with
  | s1 :: s2 :: _ =>
      let diff := (s1.current_count - s2.current_count).natAbs
      let lead := if s1.current_count > s2.current_count then s1.color else s2.color
      if diff = 0 then ["It\x27s a perfect tie!"]
      else if diff > 100 then [s!"{lead} is dominating with a lead of {diff}"]
      else if diff > 10 then [s!"Close competition with {lead} slightly ahead"]
      else []
  | _ => []

/-- `CounterService.getCounterStatistics(timeRange)`: fetches repository
stats and enriches them; the throw inside `calculateSummaryMetrics`
(empty stats) is caught and converted to the uniform failure shape. -/
def getCounterStatistics (db : DBState) (timeRange : String) : SvcStatsResult :=
  let s := CounterRepository.getCounterStats db timeRange
  match calculateSummaryMetrics s.stats with
  | none => { success := false, error := some "Failed to retrieve counter statistics" }
  | some summary =>
      { success := true,
        data := some { timeRange := s.timeRange, stats := s.stats,
                       generatedAt := s.generatedAt, summary := summary,
                       insights := generateInsights s.stats } }

end CounterService

/-- A server-to-client WebSocket message (the envelope kinds actually
produced by `WebSocketManager`). -/
inductive ServerMsg where
  | connectionConfirmed (clientId : String) (connectedAt : Nat)
  | pong (timestamp : Nat)
  | counterUpdate (counts : List (String × Int)) (timestamp : Nat)
  | statisticsUpdate (data : EnrichedStats) (timeRange : String)
  | subscriptionConfirmed (subscribed : Bool)
  | errMsg (error : String) (timestamp : Nat)
  deriving Repr, DecidableEq

/-- The `type` tag string of a server-to-client envelope, as written on
the wire. -/
def ServerMsg.kind : ServerMsg → String
  | .connectionConfirmed _ _ => "connection_confirmed"
  | .pong _ => "pong"
  | .counterUpdate _ _ => "counter_update"
  | .statisticsUpdate _ _ => "statistics_update"
  | .subscriptionConfirmed _ => "subscription_confirmed"
  | .errMsg _ _ => "error"

/-- A parsed client-to-server message: a `type` tag plus the optional
`timeRange` field used by `get_stats`. -/
structure ClientMsg where
  type : String
  timeRange : Option String := none
  deriving Repr, DecidableEq

namespace WebSocketManager

/-- The message-type tags `WebSocketManager.handleClientMessage`
dispatches on. -/
def knownTypes : List String :=
  ["ping", "get_counters", "get_stats", "subscribe_updates", "unsubscribe_updates"]

/-- `WebSocketManager.handleClientMessage(ws, clientId, message)`:
dispatches on `message.type` after refreshing `lastSeen`; returns the
updated registry and the replies sent to this client's transport.  An
unregistered `clientId` returns early with no reply; an unknown type is
answered with an `error` envelope naming the tag. -/
def handleClientMessage (clients : List WSClient) (db : DBState)
    (clientId : String) (message : ClientMsg) : List WSClient × List ServerMsg :=
  match clients.find? (fun c => c.id == clientId) with
  | none => (clients, [])
  | some _ =>
    let seen := clients.map (fun c =>
      if c.id == clientId then { c with lastSeen := db.now } else c)
    if message.type == "ping" then
      (seen, [.pong db.now])
    else if message.type == "get_counters" then
      (seen, [.counterUpdate (CounterRepository.getCounters db).counters db.now])
    else if message.type == "get_stats" then
      let tr := message.timeRange.getD "24 hours"
      match (CounterService.getCounterStatistics db tr).data with
      | some d => (seen, [.statisticsUpdate d tr])
      | none => (seen, [.errMsg "Failed to fetch statistics" db.now])
    else if message.type == "subscribe_updates" then
      (seen.map (fun c =>
        if c.id == clientId then { c with subscribed := some true } else c),
       [.subscriptionConfirmed true])
    else if message.type == "unsubscribe_updates" then
      (seen.map (fun c =>
        if c.id == clientId then { c with subscribed := some false } else c),
       [.subscriptionConfirmed false])
    else
      (seen, [.errMsg s!"Unknown message type: {message.type}" db.now])

/-- The `ws.on('message')` handler of `setupClientHandlers`: a payload
that fails to parse as JSON (`none`) is answered with
`error 'Invalid message format'` and nothing else happens; a parsed
message goes through `handleClientMessage`. -/
def handleRawMessage (clients : List WSClient) (db : DBState)
    (clientId : String) (raw : Option ClientMsg) : List WSClient × List ServerMsg :=
  match raw with
  | none => (clients, [.errMsg "Invalid message format" db.now])
  | some message => handleClientMessage clients db clientId message

/-- `WebSocketManager.broadcastToSubscribed(message)`: filters the
registry to entries whose `subscribed` flag is not `false`, then sends to
those whose transport is open; returns the deliveries made (skipped
entries produce nothing — no error). -/
def broadcastToSubscribed (clients : List WSClient) (message : ServerMsg) :
    List (String × ServerMsg) :=
  let subscribedClients := clients.filter (fun c => c.subscribed != some false)
  (subscribedClients.filter (fun c => c.isOpen)).map (fun c => (c.id, message))

/-- `WebSocketManager.broadcastCounterUpdate()` =
`sendCounterUpdate(null)`: fetches a fresh snapshot through the service
and broadcasts a `counter_update` to the subscribed open connections. -/
def broadcastCounterUpdate (db : DBState) (clients : List WSClient) :
    List (String × ServerMsg) :=
  broadcastToSubscribed clients
    (.counterUpdate (((CounterService.getCurrentCounters db).data.map
        (·.counters)).getD []) db.now)

/-- Result of accepting one new WebSocket connection: the updated
registry and the messages sent to the new client's transport, in order. -/
structure ConnectResult where
  clients : List WSClient
  sent : List ServerMsg
  deriving Repr, DecidableEq

/-- `WebSocketManager.handleConnection(ws, req)`: registers the new
client (no `subscribed` field yet), sends the initial data
(`counter_update` then `statistics_update`, or an error envelope when the
statistics call fails), and only then sends `connection_confirmed`
carrying the generated id. -/
def handleConnection (db : DBState) (clients : List WSClient) (newId : String) :
    ConnectResult :=
  let entry : WSClient :=
    { id := newId, subscribed := none, isOpen := true, isAlive := true,
      connectedAt := db.now, lastSeen := db.now }
  let initial : List ServerMsg :=
    [.counterUpdate (CounterRepository.getCounters db).counters db.now] ++
    (match (CounterService.getCounterStatistics db "24 hours").data with
     | some d => [.statisticsUpdate d "24 hours"]
     | none => [.errMsg "Failed to fetch statistics" db.now])
  { clients := clients ++ [entry],
    sent := initial ++ [.connectionConfirmed newId db.now] }

end WebSocketManager

namespace CounterController

/-- Outcome of a single-increment HTTP endpoint: the service result, the
database afterwards, and the WebSocket deliveries of the broadcast. -/
structure IncOut where
  result : SvcIncrementResult
  db : DBState
  sent : List (String × ServerMsg)
  deriving Repr, DecidableEq

/-- `CounterController.incrementRed` (`POST /api/red`): runs the service
increment for `'red'` and, only on success, broadcasts a counter update
to the WebSocket registry. -/
def incrementRed (db : DBState) (clients : List WSClient) (options : SvcOptions) :
    IncOut :=
  let t := CounterService.incrementCounter db "red" options
  if t.1.success then ⟨t.1, t.2.1, WebSocketManager.broadcastCounterUpdate t.2.1 clients⟩
  else ⟨t.1, t.2.1, []⟩

/-- Outcome of the batch endpoint: HTTP status, the batch result (absent
for the empty-array rejection), the database afterwards, and the
broadcast deliveries. -/
structure BatchOut where
  status : Nat
  result : Option BatchResult
  db : DBState
  sent : List (String × ServerMsg)
  deriving Repr, DecidableEq

/-- `CounterController.batchIncrement` (`POST /api/counters/batch`):
rejects an empty array with 400; otherwise runs the batch and broadcasts
only when `result.success` is true (i.e. when no item failed), answering
200 on full success and 207 otherwise. -/
def batchIncrement (db : DBState) (clients : List WSClient)
    (increments : List BatchItem) : BatchOut :=
  if increments.isEmpty then ⟨400, none, db, []⟩
  else
    let t := CounterService.batchIncrementCounters db increments
    let sent := if t.1.success then WebSocketManager.broadcastCounterUpdate t.2 clients else []
    ⟨if t.1.success then 200 else 207, some t.1, t.2, sent⟩

/-- Outcome of the reset endpoint. -/
structure ResetOut where
  status : Nat
  result : SvcResetResult
  db : DBState
  sent : List (String × ServerMsg)
  deriving Repr, DecidableEq

/-- `CounterController.resetCounters` (`POST /api/counters/reset`): runs
the service reset and, only on success, broadcasts a counter update. -/
def resetCounters (failAt : Option Nat) (db : DBState) (clients : List WSClient) :
    ResetOut :=
  let t := CounterService.resetAllCounters failAt db
  if t.1.success then ⟨200, t.1, t.2.1, WebSocketManager.broadcastCounterUpdate t.2.1 clients⟩
  else ⟨500, t.1, t.2.1, []⟩

end CounterController

/-- Fixture: red at 0, blue at 5, empty history. -/
def dbRB05 : DBState :=
  { counters := [⟨"red", 0, 0⟩, ⟨"blue", 5, 0⟩], history := [], now := 10 }

/-- Fixture: a registry with one freshly connected (never toggled, open)
client. -/
def oneClient : List WSClient := [{ id := "c1" }]

instance : IsTotal HistoryEntry tsDesc :=
  ⟨fun a b => le_total b.timestamp a.timestamp⟩

instance : IsTrans HistoryEntry tsDesc :=
  ⟨fun _ _ _ h1 h2 => le_trans h2 h1⟩

/-- A broadcast reaches exactly the registered connections whose
`subscribed` flag is not `false` and whose transport is open, each
receiving the one message — skipped connections contribute nothing. -/
theorem broadcastToSubscribed_eq_filter (clients : List WSClient) (m : ServerMsg) :
    WebSocketManager.broadcastToSubscribed clients m
      = (clients.filter (fun c => c.isOpen && c.subscribed != some false)).map
          (fun c => (c.id, m)) := by
  simp only [WebSocketManager.broadcastToSubscribed]
  rw [List.filter_filter]

/-- A registry that contains a connection with the given id resolves the
`clients.get(clientId)` lookup to some entry. -/
theorem find_id_isSome (clients : List WSClient) (i : String) (c : WSClient)
    (hc : c ∈ clients) (hid : c.id = i) :
    ∃ c2, clients.find? (fun x => x.id == i) = some c2 :=
  Option.isSome_iff_exists.mp (List.find?_isSome.mpr ⟨c, hc, by simp [hid]⟩)

/-- Message dispatch for an unregistered client id returns early. -/
theorem handleClientMessage_find_none (clients : List WSClient) (db : DBState)
    (clientId : String) (message : ClientMsg)
    (h : clients.find? (fun c => c.id == clientId) = none) :
    WebSocketManager.handleClientMessage clients db clientId message = (clients, []) := by
  unfold WebSocketManager.handleClientMessage
  rw [h]

/-- Reduction of the `unsubscribe_updates` branch of message dispatch. -/
theorem handleClientMessage_unsub_eq (clients : List WSClient) (db : DBState)
    (clientId : String) (c : WSClient)
    (h : clients.find? (fun c => c.id == clientId) = some c) :
    WebSocketManager.handleClientMessage clients db clientId ⟨"unsubscribe_updates", none⟩
      = ((clients.map fun x =>
            if x.id == clientId then { x with lastSeen := db.now } else x).map
           (fun x => if x.id == clientId then { x with subscribed := some false } else x),
         [.subscriptionConfirmed false]) := by
  unfold WebSocketManager.handleClientMessage
  rw [h]
  rfl

/-- Reduction of the `subscribe_updates` branch of message dispatch. -/
theorem handleClientMessage_sub_eq (clients : List WSClient) (db : DBState)
    (clientId : String) (c : WSClient)
    (h : clients.find? (fun c => c.id == clientId) = some c) :
    WebSocketManager.handleClientMessage clients db clientId ⟨"subscribe_updates", none⟩
      = ((clients.map fun x =>
            if x.id == clientId then { x with lastSeen := db.now } else x).map
           (fun x => if x.id == clientId then { x with subscribed := some true } else x),
         [.subscriptionConfirmed true]) := by
  unfold WebSocketManager.handleClientMessage
  rw [h]
  rfl

/-- Claim C1.  The claim states that every successful
`incrementCounter(color, amount)` appends exactly one `counter_history`
entry with `new_count = previous_count + increment_amount`, and N
successful increments leave N entries.  The code violates this: the
repository's `incrementCounter` updates the counter row and commits
without inserting any history row (the `clientInfo` it receives for that
purpose is dropped), so a successful increment on the seeded database
leaves the history empty, and in fact no service increment ever changes
the history table. -/
theorem C1_increment_writes_no_history :
    (CounterService.incrementCounter seededDB "red" {}).1.success = true ∧
    ((CounterService.incrementCounter seededDB "red" {}).2.1.counters.map
        (fun r => (r.color, r.count))) = [("red", 1), ("blue", 0)] ∧
    (CounterService.incrementCounter seededDB "red" {}).2.1.history.length = 0 ∧
    (∀ (db : DBState) (color : String) (options : SvcOptions),
      (CounterService.incrementCounter db color options).2.1.history = db.history) := by
  refine ⟨by decide, by decide, by decide, ?_⟩
  intro db color options
  unfold CounterService.incrementCounter
  by_cases h1 : CounterService.isValidColor color
  · by_cases h2 : options.incrementBy < 1
    · simp [h1, h2]
    · simp only [h1, Bool.not_true, Bool.false_eq_true, if_false, h2, if_neg h2]
      unfold CounterRepository.incrementCounter
      cases hf : db.counters.find? (fun r => r.color == color) <;> simp [hf]
  · simp [h1]

/-- Claim C2 counterexample.  The claim says reset appends one history
entry per counter whose pre-reset count was non-zero.  On a state where
red is 0 and blue is 5, the code appends two entries — one per counter
row, including a `(red, 0, 0, 0)` entry for the zero counter — while only
one counter was non-zero. -/
theorem C2_reset_counterexample :
    ((CounterRepository.resetCounters none dbRB05).toOption.map
        (fun d => d.history.length)) = some 2 ∧
    (dbRB05.counters.filter (fun r => r.count != 0)).length = 1 ∧
    ((CounterRepository.resetCounters none dbRB05).toOption.map
        (fun d => d.history.map (fun e => (e.color, e.previous_count, e.increment_amount))))
      = some [("red", 0, 0), ("blue", 5, -5)] := by decide

/-- Claim C2, amended.  After `resetAllCounters()` completes successfully
both counters read 0 and exactly one history entry is appended per
counter row (whether or not its pre-reset count was zero), with
`increment_amount = -previousCount` and `new_count = 0`; the reset is one
transaction, so on failure no counter value changes and no history entry
is appended. -/
theorem C2_reset_amended (db : DBState) (failAt : Option Nat) :
    ((CounterService.resetAllCounters failAt db).1.success = true →
      (∀ r ∈ (CounterService.resetAllCounters failAt db).2.1.counters, r.count = 0) ∧
      (CounterService.resetAllCounters failAt db).2.1.history
        = db.history ++ db.counters.map (resetEntry db.now) ∧
      (∀ e ∈ db.counters.map (resetEntry db.now),
        e.new_count = 0 ∧ e.increment_amount = -e.previous_count ∧
        e.new_count = e.previous_count + e.increment_amount)) ∧
    ((CounterService.resetAllCounters failAt db).1.success = false →
      (CounterService.resetAllCounters failAt db).2.1 = db) := by
  unfold CounterService.resetAllCounters CounterRepository.resetCounters
  by_cases hf : resetFails failAt db.counters.length = true
  · rw [if_pos hf]
    refine ⟨fun h => ?_, fun _ => rfl⟩
    cases h
  · rw [if_neg hf]
    refine ⟨fun _ => ⟨?_, rfl, ?_⟩, fun h => by cases h⟩
    · intro r hr
      obtain ⟨r0, _, rfl⟩ := List.mem_map.1 hr
      rfl
    · intro e he
      obtain ⟨r0, _, rfl⟩ := List.mem_map.1 he
      exact ⟨rfl, rfl, by simp [resetEntry]⟩

/-- Claim C2 witness: the amended reset theorem applied to the concrete
state with red at 0 and blue at 5 and no injected failure. -/
theorem C2_reset_amended_witness :
    (CounterService.resetAllCounters none dbRB05).1.success = true ∧
    ((∀ r ∈ (CounterService.resetAllCounters none dbRB05).2.1.counters, r.count = 0) ∧
      (CounterService.resetAllCounters none dbRB05).2.1.history
        = dbRB05.history ++ dbRB05.counters.map (resetEntry dbRB05.now) ∧
      (∀ e ∈ dbRB05.counters.map (resetEntry dbRB05.now),
        e.new_count = 0 ∧ e.increment_amount = -e.previous_count ∧
        e.new_count = e.previous_count + e.increment_amount)) :=
  ⟨by decide, (C2_reset_amended dbRB05 none).1 (by decide)⟩

/-- Claim C3 counterexample.  The claim says the store is never invoked
when `color` is not in `{red, blue}`.  For `color = 'RED'` — which is not
in `{red, blue}` — validation passes (it lower-cases), the store IS
invoked (with the original string), and the error returned is the generic
repository failure, not a validation failure. -/
theorem C3_counterexample :
    "RED" ∉ CounterService.validColors ∧
    (CounterService.incrementCounter seededDB "RED" {}).2.2
      = [.repoIncrement "RED" 1] ∧
    (CounterService.incrementCounter seededDB "RED" {}).1.error
      = some "Failed to increment RED counter" := by decide

/-- Claim C3, amended.  `incrementCounter(color, options)` returns a
validation failure (success=false with an error message) whenever the
lower-cased color is not in `{red, blue}` or `incrementBy < 1` (e.g. 0 or
-1), and in every such case the store is never invoked: the database
state is unchanged and no history entry is produced. -/
theorem C3_validation_amended (db : DBState) (color : String) (options : SvcOptions)
    (h : CounterService.isValidColor color = false ∨ options.incrementBy < 1) :
    (CounterService.incrementCounter db color options).1.success = false ∧
    ((CounterService.incrementCounter db color options).1.error).isSome = true ∧
    (CounterService.incrementCounter db color options).2.1 = db ∧
    (CounterService.incrementCounter db color options).2.2 = [] := by
  unfold CounterService.incrementCounter
  by_cases h1 : CounterService.isValidColor color
  · rcases h with h | h
    · rw [h1] at h; cases h
    · simp [h1, h]
  · simp [h1]

/-- Claim C3 witness: the amended validation theorem applied at
`'green'` (invalid color) and at `'red'` with `incrementBy = 0`. -/
theorem C3_validation_amended_witness :
    ((CounterService.incrementCounter seededDB "green" {}).1.success = false ∧
      ((CounterService.incrementCounter seededDB "green" {}).1.error).isSome = true ∧
      (CounterService.incrementCounter seededDB "green" {}).2.1 = seededDB ∧
      (CounterService.incrementCounter seededDB "green" {}).2.2 = []) ∧
    ((CounterService.incrementCounter seededDB "red" ⟨0, none, none⟩).1.success = false ∧
      ((CounterService.incrementCounter seededDB "red" ⟨0, none, none⟩).1.error).isSome = true ∧
      (CounterService.incrementCounter seededDB "red" ⟨0, none, none⟩).2.1 = seededDB ∧
      (CounterService.incrementCounter seededDB "red" ⟨0, none, none⟩).2.2 = []) :=
  ⟨C3_validation_amended seededDB "green" {} (Or.inl (by decide)),
   C3_validation_amended seededDB "red" ⟨0, none, none⟩ (Or.inr (by decide))⟩

/-- Claim C4 counterexample.  The claim says every batch-increment call
in which at least one item succeeds triggers a broadcast.  A batch of
`[red, green]` against the seeded database has one successful item (red's
counter changes), yet no broadcast is delivered, although the registry
holds a subscribed open client that a broadcast would have reached. -/
theorem C4_batch_counterexample :
    ((CounterController.batchIncrement seededDB oneClient
        [⟨"red", 1, none⟩, ⟨"green", 1, none⟩]).result.map
          (fun r => r.summary.successful)) = some 1 ∧
    (CounterController.batchIncrement seededDB oneClient
        [⟨"red", 1, none⟩, ⟨"green", 1, none⟩]).sent = [] ∧
    WebSocketManager.broadcastCounterUpdate
        (CounterController.batchIncrement seededDB oneClient
          [⟨"red", 1, none⟩, ⟨"green", 1, none⟩]).db oneClient ≠ [] := by decide

/-- Claim C4, amended.  Every successful single increment and reset, and
every batch-increment call in which ALL items succeed (the controller
broadcasts only when the batch-level `success` flag is true; a partially
failing batch broadcasts nothing even though counters changed), is
followed by exactly one broadcast that fetches a fresh post-mutation
snapshot and pushes a `counter_update` to every registered connection
whose subscribed flag is not false and whose transport is open. -/
theorem C4_broadcast_amended (db : DBState) (clients : List WSClient)
    (options : SvcOptions) (items : List BatchItem) (failAt : Option Nat) :
    ((CounterController.incrementRed db clients options).sent
      = if (CounterController.incrementRed db clients options).result.success
        then WebSocketManager.broadcastCounterUpdate
               (CounterController.incrementRed db clients options).db clients
        else []) ∧
    ((CounterController.batchIncrement db clients items).sent
      = if ((CounterController.batchIncrement db clients items).result.map
              (fun r => r.success)).getD false
        then WebSocketManager.broadcastCounterUpdate
               (CounterController.batchIncrement db clients items).db clients
        else []) ∧
    ((CounterController.resetCounters failAt db clients).sent
      = if (CounterController.resetCounters failAt db clients).result.success
        then WebSocketManager.broadcastCounterUpdate
               (CounterController.resetCounters failAt db clients).db clients
        else []) ∧
    (∀ m, WebSocketManager.broadcastToSubscribed clients m
      = (clients.filter (fun c => c.isOpen && c.subscribed != some false)).map
          (fun c => (c.id, m))) := by
  refine ⟨?_, ?_, ?_, broadcastToSubscribed_eq_filter clients⟩
  · unfold CounterController.incrementRed
    by_cases h : (CounterService.incrementCounter db "red" options).1.success = true
    · simp [h]
    · simp [h]
  · unfold CounterController.batchIncrement
    by_cases he : items.isEmpty = true
    · simp [he]
    · by_cases h : (CounterService.batchIncrementCounters db items).1.success = true
      · simp [he, h]
      · simp [he, h]
  · unfold CounterController.resetCounters
    by_cases h : (CounterService.resetAllCounters failAt db).1.success = true
    · simp [h]
    · simp [h]

/-- Claim C5 counterexample.  The claim says a new connection receives
`connection_confirmed` first, then `counter_update`, then
`statistics_update`.  The code sends the initial data first and
`connection_confirmed` last: on the seeded database the wire order is
`counter_update`, `statistics_update`, `connection_confirmed`. -/
theorem C5_order_counterexample :
    ((WebSocketManager.handleConnection seededDB [] "c1").sent.map ServerMsg.kind)
      = ["counter_update", "statistics_update", "connection_confirmed"] ∧
    ((WebSocketManager.handleConnection seededDB [] "c1").sent.head?.map ServerMsg.kind)
      ≠ some "connection_confirmed" := by decide

/-- Claim C5, amended.  On every new WebSocket connection (with counters
seeded, so the statistics call succeeds), the server sends, without any
client request, exactly one `counter_update` (a fresh snapshot) and one
`statistics_update`, in that order, followed — last, not first — by one
`connection_confirmed` carrying the freshly generated client id; the new
connection is registered with no `subscribed` flag set and an open
transport. -/
theorem C5_initial_data_amended (db : DBState) (clients : List WSClient)
    (newId : String) (h : db.counters ≠ []) :
    ((WebSocketManager.handleConnection db clients newId).sent.map ServerMsg.kind)
      = ["counter_update", "statistics_update", "connection_confirmed"] ∧
    (WebSocketManager.handleConnection db clients newId).sent.head?
      = some (.counterUpdate (CounterRepository.getCounters db).counters db.now) ∧
    (WebSocketManager.handleConnection db clients newId).sent.getLast?
      = some (.connectionConfirmed newId db.now) ∧
    (WebSocketManager.handleConnection db clients newId).clients
      = clients ++ [{ id := newId, subscribed := none, isOpen := true, isAlive := true,
                      connectedAt := db.now, lastSeen := db.now }] := by
  have hlen : List.insertionSort colorLe db.counters ≠ [] := by
    intro hnil
    apply h
    have hl := (List.perm_insertionSort colorLe db.counters).length_eq
    rw [hnil] at hl
    exact List.length_eq_zero.mp hl.symm
  obtain ⟨a, l, hs⟩ := List.exists_cons_of_ne_nil hlen
  unfold WebSocketManager.handleConnection CounterService.getCounterStatistics
    CounterRepository.getCounterStats
  rw [hs]
  exact ⟨rfl, rfl, rfl, rfl⟩

/-- Claim C5 witness: the amended connection theorem applied to the
seeded database with an empty registry and client id `c1`. -/
theorem C5_initial_data_amended_witness :
    seededDB.counters ≠ [] ∧
    ((WebSocketManager.handleConnection seededDB [] "c1").sent.map ServerMsg.kind)
      = ["counter_update", "statistics_update", "connection_confirmed"] ∧
    (WebSocketManager.handleConnection seededDB [] "c1").sent.getLast?
      = some (.connectionConfirmed "c1" seededDB.now) :=
  ⟨by decide,
   (C5_initial_data_amended seededDB [] "c1" (by decide)).1,
   (C5_initial_data_amended seededDB [] "c1" (by decide)).2.2.1⟩

/-- Claim C6.  After a connection processes `unsubscribe_updates`, a
subsequent mutation-triggered broadcast delivers no `counter_update` to
it; after it processes a subsequent `subscribe_updates`, broadcasts
deliver to it again (its transport being open); and a broadcast reaches
exactly the connections with `subscribed` not false and an open
transport — the others are skipped silently, producing no error. -/
theorem C6_subscription_gates_broadcast (db db2 db3 db4 : DBState)
    (clients : List WSClient) (clientId : String)
    (hopen : ∃ c ∈ clients, c.id = clientId ∧ c.isOpen = true) :
    (∀ p ∈ WebSocketManager.broadcastCounterUpdate db2
        (WebSocketManager.handleClientMessage clients db clientId
          ⟨"unsubscribe_updates", none⟩).1,
        p.1 ≠ clientId) ∧
    ((clientId, ServerMsg.counterUpdate (CounterRepository.getCounters db4).counters db4.now)
      ∈ WebSocketManager.broadcastCounterUpdate db4
          (WebSocketManager.handleClientMessage
            (WebSocketManager.handleClientMessage clients db clientId
              ⟨"unsubscribe_updates", none⟩).1
            db3 clientId ⟨"subscribe_updates", none⟩).1) ∧
    (∀ (cs : List WSClient) (m : ServerMsg),
      WebSocketManager.broadcastToSubscribed cs m
        = (cs.filter (fun c => c.isOpen && c.subscribed != some false)).map
            (fun c => (c.id, m))) := by
  obtain ⟨c0, hc0mem, hc0id, hc0open⟩ := hopen
  subst hc0id
  obtain ⟨cf, hcf⟩ := find_id_isSome clients c0.id c0 hc0mem rfl
  rw [handleClientMessage_unsub_eq clients db c0.id cf hcf]
  have hmem1 : (fun x => if x.id == c0.id then { x with subscribed := some false } else x)
      ((fun x => if x.id == c0.id then { x with lastSeen := db.now } else x) c0)
      ∈ (clients.map fun x =>
          if x.id == c0.id then { x with lastSeen := db.now } else x).map
        (fun x => if x.id == c0.id then { x with subscribed := some false } else x) :=
    List.mem_map_of_mem _ (List.mem_map_of_mem _ hc0mem)
  obtain ⟨cf2, hcf2⟩ := find_id_isSome _ c0.id _ hmem1 (by simp)
  rw [handleClientMessage_sub_eq _ db3 c0.id cf2 hcf2]
  refine ⟨?_, ?_, fun cs m => broadcastToSubscribed_eq_filter cs m⟩
  · intro p hp
    unfold WebSocketManager.broadcastCounterUpdate at hp
    rw [broadcastToSubscribed_eq_filter] at hp
    obtain ⟨c, hcfil, rfl⟩ := List.mem_map.1 hp
    obtain ⟨hcin, hcpred⟩ := List.mem_filter.1 hcfil
    rw [List.map_map] at hcin
    obtain ⟨c1, _, rfl⟩ := List.mem_map.1 hcin
    by_cases hid : c1.id = c0.id
    · simp [Function.comp, hid] at hcpred
    · simp [Function.comp, hid]
  · unfold WebSocketManager.broadcastCounterUpdate
    rw [broadcastToSubscribed_eq_filter]
    apply List.mem_map.2
    refine ⟨(fun x => if x.id == c0.id then { x with subscribed := some true } else x)
        ((fun x => if x.id == c0.id then { x with lastSeen := db3.now } else x)
          ((fun x => if x.id == c0.id then { x with subscribed := some false } else x)
            ((fun x => if x.id == c0.id then { x with lastSeen := db.now } else x) c0))),
      List.mem_filter.2 ⟨List.mem_map_of_mem _ (List.mem_map_of_mem _ hmem1), ?_⟩, ?_⟩
    · simp [hc0open]
    · simp [CounterService.getCurrentCounters]

/-- Claim C6 witness: the subscription-toggle theorem applied to a
registry holding the single open client `c1` against the seeded
database. -/
theorem C6_subscription_gates_broadcast_witness :
    (∃ c ∈ oneClient, c.id = "c1" ∧ c.isOpen = true) ∧
    (("c1", ServerMsg.counterUpdate (CounterRepository.getCounters seededDB).counters seededDB.now)
      ∈ WebSocketManager.broadcastCounterUpdate seededDB
          (WebSocketManager.handleClientMessage
            (WebSocketManager.handleClientMessage oneClient seededDB "c1"
              ⟨"unsubscribe_updates", none⟩).1
            seededDB "c1" ⟨"subscribe_updates", none⟩).1) :=
  ⟨by decide,
   (C6_subscription_gates_broadcast seededDB seededDB seededDB seededDB oneClient "c1"
      (by decide)).2.1⟩

/-- Claim C7.  An inbound message whose type is none of the known kinds
is answered with an `error` envelope naming the unrecognized kind, and an
unparseable payload with `error 'Invalid message format'`; in both cases
the registry keeps the same connections with the same `subscribed` flags
and transports — the connection is never closed or removed by this
path. -/
theorem C7_protocol_resilience (db : DBState) (clients : List WSClient)
    (clientId : String) (message : ClientMsg)
    (hmem : ∃ c ∈ clients, c.id = clientId)
    (hunknown : message.type ∉ WebSocketManager.knownTypes) :
    ((WebSocketManager.handleRawMessage clients db clientId (some message)).2
      = [.errMsg s!"Unknown message type: {message.type}" db.now]) ∧
    (((WebSocketManager.handleRawMessage clients db clientId (some message)).1.map
        (fun c => (c.id, c.subscribed, c.isOpen)))
      = clients.map (fun c => (c.id, c.subscribed, c.isOpen))) ∧
    ((WebSocketManager.handleRawMessage clients db clientId none).1 = clients) ∧
    ((WebSocketManager.handleRawMessage clients db clientId none).2
      = [.errMsg "Invalid message format" db.now]) := by
  obtain ⟨c0, hc0mem, hc0id⟩ := hmem
  subst hc0id
  simp only [WebSocketManager.knownTypes, List.mem_cons, List.not_mem_nil,
    or_false, not_or] at hunknown
  obtain ⟨h1, h2, h3, h4, h5⟩ := hunknown
  obtain ⟨cf, hcf⟩ := find_id_isSome clients c0.id c0 hc0mem rfl
  have hb1 : (message.type == "ping") = false := beq_eq_false_iff_ne.mpr h1
  have hb2 : (message.type == "get_counters") = false := beq_eq_false_iff_ne.mpr h2
  have hb3 : (message.type == "get_stats") = false := beq_eq_false_iff_ne.mpr h3
  have hb4 : (message.type == "subscribe_updates") = false := beq_eq_false_iff_ne.mpr h4
  have hb5 : (message.type == "unsubscribe_updates") = false := beq_eq_false_iff_ne.mpr h5
  refine ⟨?_, ?_, rfl, rfl⟩
  · unfold WebSocketManager.handleRawMessage WebSocketManager.handleClientMessage
    rw [hcf]
    simp [hb1, hb2, hb3, hb4, hb5]
  · unfold WebSocketManager.handleRawMessage WebSocketManager.handleClientMessage
    rw [hcf]
    simp only [hb1, hb2, hb3, hb4, hb5, Bool.false_eq_true, if_false, List.map_map]
    apply List.map_congr_left
    intro a _
    by_cases ha : a.id = c0.id
    · simp [ha]
    · simp [ha]

/-- Claim C7 witness: the resilience theorem applied to the unknown
message kind `bogus` from the registered client `c1`. -/
theorem C7_protocol_resilience_witness :
    (∃ c ∈ oneClient, c.id = "c1") ∧
    ((WebSocketManager.handleRawMessage oneClient seededDB "c1"
        (some ⟨"bogus", none⟩)).2
      = [.errMsg "Unknown message type: bogus" seededDB.now]) ∧
    ((WebSocketManager.handleRawMessage oneClient seededDB "c1" none).2
      = [.errMsg "Invalid message format" seededDB.now]) :=
  ⟨by decide,
   (C7_protocol_resilience seededDB oneClient "c1" ⟨"bogus", none⟩
      (by decide) (by decide)).1,
   (C7_protocol_resilience seededDB oneClient "c1" ⟨"bogus", none⟩
      (by decide) (by decide)).2.2.2⟩

/-- Fixture: two counters with three history entries whose timestamps
arrive out of order. -/
def histDB : DBState :=
  { counters := [⟨"red", 2, 6⟩, ⟨"blue", 1, 5⟩],
    history := [⟨"red", 0, 1, 1, none, 3, none⟩, ⟨"blue", 0, 1, 1, none, 5, none⟩,
                ⟨"red", 1, 2, 1, none, 4, none⟩],
    now := 7 }

/-- The service history call depends on its limit and offset only through
`min limit 1000` and `max offset 0`. -/
theorem getCounterHistory_clamps (db : DBState) (f g : HistoryFilters)
    (hc : f.color = g.color) (hs : f.startDate = g.startDate)
    (he : f.endDate = g.endDate) (hl : min f.limit 1000 = min g.limit 1000)
    (ho : max f.offset 0 = max g.offset 0) :
    CounterService.getCounterHistory db f = CounterService.getCounterHistory db g := by
  unfold CounterService.getCounterHistory CounterService.historyFetch
  rw [hc, hs, he, hl, ho]

/-- Pages produced by the repository history query are ordered by
timestamp descending. -/
theorem getCounterHistory_page_sorted (db : DBState) (color : Option String)
    (limit offset : Int) (startDate endDate : Option Nat) (page : HistoryPage)
    (h : CounterRepository.getCounterHistory db color limit offset startDate endDate
      = .ok page) :
    page.history.Sorted tsDesc := by
  unfold CounterRepository.getCounterHistory at h
  by_cases hneg : (limit < 0 || offset < 0) = true
  · rw [if_pos hneg] at h
    cases h
  · rw [if_neg hneg] at h
    injection h with h
    subst h
    exact List.Pairwise.sublist
      ((List.take_sublist _ _).trans (List.drop_sublist _ _))
      (List.sorted_insertionSort tsDesc _)

/-- Pages produced by the service history call are ordered by timestamp
descending. -/
theorem service_history_page_sorted (db : DBState) (f : HistoryFilters)
    (page : HistoryPage)
    (h : (CounterService.getCounterHistory db f).data = some page) :
    page.history.Sorted tsDesc := by
  unfold CounterService.getCounterHistory CounterService.historyFetch at h
  cases hc : f.color with
  | none =>
      rw [hc] at h
      cases hr : CounterRepository.getCounterHistory db none
          (min f.limit 1000) (max f.offset 0) f.startDate f.endDate with
      | error e =>
          simp only [hr] at h
          exact Option.noConfusion h
      | ok p =>
          simp only [hr, Option.some.injEq] at h
          subst h
          exact getCounterHistory_page_sorted db none _ _ _ _ p hr
  | some c =>
      rw [hc] at h
      by_cases hv : CounterService.isValidColor c = true
      · simp only [hv, Bool.not_true, Bool.false_eq_true, if_false] at h
        cases hr : CounterRepository.getCounterHistory db (some c)
            (min f.limit 1000) (max f.offset 0) f.startDate f.endDate with
        | error e =>
            simp only [hr] at h
            exact Option.noConfusion h
        | ok p =>
            simp only [hr, Option.some.injEq] at h
            subst h
            exact getCounterHistory_page_sorted db (some c) _ _ _ _ p hr
      · rw [Bool.not_eq_true] at hv
        simp only [hv, Bool.not_false, if_true] at h
        exact Option.noConfusion h

/-- Claim C8.  The effective limit of a history query is
`min(requested, 1000)` and the effective offset is `max(requested, 0)`:
a query with limit 5000 equals the same query with limit 1000, one with
offset -5 equals one with offset 0, and any query equals itself with
clamped parameters; every returned page is ordered by timestamp
descending (most recent first). -/
theorem C8_history_pagination (db : DBState) (color : Option String)
    (startDate endDate : Option Nat) (lim off : Int) :
    (CounterService.getCounterHistory db
        { color := color, limit := 5000, offset := off,
          startDate := startDate, endDate := endDate }
      = CounterService.getCounterHistory db
        { color := color, limit := 1000, offset := off,
          startDate := startDate, endDate := endDate }) ∧
    (CounterService.getCounterHistory db
        { color := color, limit := lim, offset := -5,
          startDate := startDate, endDate := endDate }
      = CounterService.getCounterHistory db
        { color := color, limit := lim, offset := 0,
          startDate := startDate, endDate := endDate }) ∧
    (CounterService.getCounterHistory db
        { color := color, limit := lim, offset := off,
          startDate := startDate, endDate := endDate }
      = CounterService.getCounterHistory db
        { color := color, limit := min lim 1000, offset := max off 0,
          startDate := startDate, endDate := endDate }) ∧
    (∀ page ∈ (CounterService.getCounterHistory db
        { color := color, limit := lim, offset := off,
          startDate := startDate, endDate := endDate }).data.toList,
      page.history.Sorted tsDesc) := by
  refine ⟨getCounterHistory_clamps db _ _ rfl rfl rfl
            (by show min (5000 : Int) 1000 = min (1000 : Int) 1000; decide) rfl,
          getCounterHistory_clamps db _ _ rfl rfl rfl rfl
            (by show max (-5 : Int) 0 = max (0 : Int) 0; decide),
          getCounterHistory_clamps db _ _ rfl rfl rfl ?_ ?_,
          ?_⟩
  · show min lim 1000 = min (min lim 1000) 1000
    rw [min_assoc, min_self]
  · show max off 0 = max (max off 0) 0
    rw [max_assoc, max_self]
  · intro page hp
    apply service_history_page_sorted db _ page
    rwa [Option.mem_toList, Option.mem_def] at hp

/-- Claim C8 witness: the pagination theorem applied to the concrete
three-entry history fixture; the page served for the default query is
ordered by timestamp descending. -/
theorem C8_history_pagination_witness :
    (CounterService.getCounterHistory histDB
        { color := none, limit := 5000, offset := 0,
          startDate := none, endDate := none }
      = CounterService.getCounterHistory histDB
        { color := none, limit := 1000, offset := 0,
          startDate := none, endDate := none }) ∧
    ((CounterService.getCounterHistory histDB
        { color := none, limit := 50, offset := 0,
          startDate := none, endDate := none }).data.getD
          ⟨[], 0, 0, 0, false⟩).history.Sorted tsDesc :=
  ⟨(C8_history_pagination histDB none none none 50 0).1,
   (C8_history_pagination histDB none none none 50 0).2.2.2 _ (by decide)⟩

/-- Claim C9 counterexample.  The claim says an unrecognized `timeRange`
produces exactly the same result as `'24 hours'`.  The window predicate
and the stats rows do coincide, but the full result object is not
identical: its `timeRange` field echoes the original string (`'bogus'`
instead of `'24 hours'`). -/
theorem C9_echo_counterexample :
    CounterRepository.getCounterStats dbRB05 "bogus"
      ≠ CounterRepository.getCounterStats dbRB05 "24 hours" ∧
    (CounterRepository.getCounterStats dbRB05 "bogus").timeRange = "bogus" ∧
    (CounterRepository.getCounterStats dbRB05 "bogus").stats
      = (CounterRepository.getCounterStats dbRB05 "24 hours").stats := by decide

/-- Claim C9, amended.  For every `timeRange` string other than the five
recognized labels, the statistics query deterministically uses the same
time-window predicate as `'24 hours'` and produces identical stats rows
and `generatedAt` (rather than rejecting the input); only the echoed
`timeRange` field of the result differs, reproducing the input string. -/
theorem C9_fallback_amended (db : DBState) (t : String)
    (h : t ∉ ["1 hour", "24 hours", "7 days", "30 days", "1 year"]) :
    CounterRepository.getTimeRangeQuery t
      = CounterRepository.getTimeRangeQuery "24 hours" ∧
    (CounterRepository.getCounterStats db t).stats
      = (CounterRepository.getCounterStats db "24 hours").stats ∧
    (CounterRepository.getCounterStats db t).generatedAt
      = (CounterRepository.getCounterStats db "24 hours").generatedAt ∧
    (CounterRepository.getCounterStats db t).timeRange = t := by
  simp only [List.mem_cons, List.not_mem_nil, or_false, not_or] at h
  obtain ⟨h1, h2, h3, h4, h5⟩ := h
  have b1 : (t == "1 hour") = false := beq_eq_false_iff_ne.mpr h1
  have b2 : (t == "24 hours") = false := beq_eq_false_iff_ne.mpr h2
  have b3 : (t == "7 days") = false := beq_eq_false_iff_ne.mpr h3
  have b4 : (t == "30 days") = false := beq_eq_false_iff_ne.mpr h4
  have b5 : (t == "1 year") = false := beq_eq_false_iff_ne.mpr h5
  have hq : CounterRepository.ranges.lookup t = none := by
    simp [CounterRepository.ranges, List.lookup, b1, b2, b3, b4, b5]
  have hg : CounterRepository.getTimeRangeQuery t
      = CounterRepository.getTimeRangeQuery "24 hours" := by
    unfold CounterRepository.getTimeRangeQuery
    rw [hq]
    decide
  refine ⟨hg, ?_, rfl, rfl⟩
  unfold CounterRepository.getCounterStats
  rw [hg]

/-- Claim C9 witness: the fallback theorem applied to the unrecognized
label `bogus` against the red-0/blue-5 fixture. -/
theorem C9_fallback_amended_witness :
    "bogus" ∉ ["1 hour", "24 hours", "7 days", "30 days", "1 year"] ∧
    CounterRepository.getTimeRangeQuery "bogus"
      = CounterRepository.getTimeRangeQuery "24 hours" ∧
    (CounterRepository.getCounterStats dbRB05 "bogus").stats
      = (CounterRepository.getCounterStats dbRB05 "24 hours").stats :=
  ⟨by decide,
   (C9_fallback_amended dbRB05 "bogus" (by decide)).1,
   (C9_fallback_amended dbRB05 "bogus" (by decide)).2.1⟩

/-- Claim C10.  Color validation is case-insensitive while the store
lookup is case-sensitive: `'RED'` passes `isValidColor` (which
lower-cases before comparing against `{red, blue}`), the store is then
queried with the original string, finds no counter row, and the call
returns the generic failure `{success:false, error:'Failed to increment
RED counter'}` rather than the invalid-color validation message; no
counter value changes. -/
theorem C10_case_mismatch (db : DBState) (options : SvcOptions)
    (hrow : db.counters.find? (fun r => r.color == "RED") = none)
    (hamt : 1 ≤ options.incrementBy) :
    CounterService.isValidColor "RED" = true ∧
    (CounterService.incrementCounter db "RED" options).1
      = { success := false, error := some "Failed to increment RED counter" } ∧
    (CounterService.incrementCounter db "RED" options).1.error
      ≠ some "Invalid color \x27RED\x27. Valid colors are: red, blue" ∧
    (CounterService.incrementCounter db "RED" options).2.1 = db ∧
    (CounterService.incrementCounter db "RED" options).2.2
      = [.repoIncrement "RED" options.incrementBy] := by
  have hnl : ¬ options.incrementBy < 1 := not_lt.mpr hamt
  unfold CounterService.incrementCounter CounterRepository.incrementCounter
  rw [if_neg (by decide)]
  rw [if_neg hnl]
  rw [hrow]
  refine ⟨rfl, rfl, fun hcontra => ?_, rfl, rfl⟩
  have hss : (some "Failed to increment RED counter" : Option String)
      = some "Invalid color \x27RED\x27. Valid colors are: red, blue" := hcontra
  exact absurd (Option.some.inj hss) (by decide)

/-- Claim C10 witness: the case-mismatch theorem applied to the seeded
database (rows `red` and `blue` only) with default options. -/
theorem C10_case_mismatch_witness :
    (seededDB.counters.find? (fun r => r.color == "RED") = none) ∧
    (1 ≤ (({} : SvcOptions)).incrementBy) ∧
    ((CounterService.incrementCounter seededDB "RED" {}).1
      = { success := false, error := some "Failed to increment RED counter" }) ∧
    ((CounterService.incrementCounter seededDB "RED" {}).2.1 = seededDB) :=
  ⟨by decide, by decide,
   (C10_case_mismatch seededDB {} (by decide) (by decide)).2.1,
   (C10_case_mismatch seededDB {} (by decide) (by decide)).2.2.2.1⟩

end RedVsBlue
